import Mathlib

/-
  Verification of the OpenPSX2AmigaPadAdapter firmware core
  (src/firmware/PS2_2_CD32.ino) against its design document.

  The firmware is shallowly embedded: machine bytes are Nat values kept
  below 256 with explicit masking and shifting, C int arithmetic is Int
  with Int.tdiv for the C division that truncates toward zero, pins are
  records holding direction and output-register level, and the
  interrupt-driven pieces are explicit step functions over small state
  records driven by event lists.
-/

namespace PS2CD32

/-- Pad operating modes, from the PadMode enumeration of the firmware. -/
inductive PadMode where
  | MODE_JOYSTICK
  | MODE_MOUSE
  | MODE_CD32
deriving DecidableEq, Repr

/-- Joystick mapping profiles, from the JoyButtonMapping enumeration. -/
inductive JoyButtonMapping where
  | JMAP_NORMAL
  | JMAP_RACING1
  | JMAP_RACING2
  | JMAP_PLATFORM
deriving DecidableEq, Repr

/-- Analog sticks idle value (const byte ANALOG_IDLE_VALUE = 127). -/
def ANALOG_IDLE_VALUE : Int := 127

/-- Dead zone for analog sticks (const byte ANALOG_DEAD_ZONE = 65). -/
def ANALOG_DEAD_ZONE : Int := 65

/-- Quadrature wave delay at the slowest mouse speed (MOUSE_SLOW_DELTA = 60). -/
def MOUSE_SLOW_DELTA : Int := 60

/-- Quadrature wave delay at the fastest mouse speed (MOUSE_FAST_DELTA = 6). -/
def MOUSE_FAST_DELTA : Int := 6

/-- Milliseconds the pad-mode line must stay deasserted before CD32 mode is
left (const byte TIMEOUT_CD32_MODE = 200). -/
def TIMEOUT_CD32_MODE : Nat := 200

/-- Button bit for Blue in the CD32 register (BTN_BLUE = 1 shifted by 0). -/
def BTN_BLUE : Nat := 1

/-- Button bit for Red (BTN_RED = 1 shifted by 1). -/
def BTN_RED : Nat := 2

/-- Button bit for Yellow (BTN_YELLOW = 1 shifted by 2). -/
def BTN_YELLOW : Nat := 4

/-- Button bit for Green (BTN_GREEN = 1 shifted by 3). -/
def BTN_GREEN : Nat := 8

/-- Button bit for the right shoulder group (BTN_FRONT_R = 1 shifted by 4). -/
def BTN_FRONT_R : Nat := 16

/-- Button bit for the left shoulder group (BTN_FRONT_L = 1 shifted by 5). -/
def BTN_FRONT_L : Nat := 32

/-- Button bit for Start (BTN_START = 1 shifted by 6). -/
def BTN_START : Nat := 64

/-- Snapshot of the PS2 controller as read once per polling cycle through
the PS2X library: the digital buttons consulted by the firmware and the
four analog axis values, each in 0..255. -/
structure PS2Snapshot where
  padUp : Bool
  padDown : Bool
  padLeft : Bool
  padRight : Bool
  square : Bool
  cross : Bool
  triangle : Bool
  circle : Bool
  startBtn : Bool
  selectBtn : Bool
  l1 : Bool
  l2 : Bool
  l3 : Bool
  r1 : Bool
  r2 : Bool
  r3 : Bool
  lx : Nat
  ly : Nat
  rx : Nat
  ry : Nat
deriving DecidableEq, Repr

/-! ## Serial pad protocol encoder (onPadModeChange / onClockEdge)

The volatile byte buttons is the shifting register. On the strobe-asserted
edge onPadModeChange latches buttonsLive into it, immediately writes
buttons AND 1 to PIN_BTNREGOUT and shifts right by one; every subsequent
rising clock edge (onClockEdge) writes buttons AND 1 and shifts right by
one. The register is a Nat below 256; shifting feeds in zero bits. -/

/-- Data-line values emitted by k successive onClockEdge calls starting
from shift-register value b: each edge outputs b AND 1 and shifts b right
by one. -/
def clockEdgeOutputs (b : Nat) : Nat → List Nat
  | 0 => []
  | k + 1 => (b &&& 1) :: clockEdgeOutputs (b >>> 1) k

/-- Data-line values emitted by one strobe-asserted edge latching register
value r (onPadModeChange outputs r AND 1 and shifts) followed by k clock
edges. -/
def strobeThenClocks (r k : Nat) : List Nat :=
  (r &&& 1) :: clockEdgeOutputs (r >>> 1) k

/-! ## Live button register (buttonsLive) -/

/-- Initial value of the live button register (byte buttonsLive = 0x80):
all buttons released, reserved bit 7 set for the ID sequence. -/
def buttonsLiveInit : Nat := 0x80

/-- The masking sequence of handleCD32Pad: start from 0xFF (all released,
bit 7 set) and clear the bit of each pressed button, in source order.
Masking with 0xFF XOR bit models the C idiom of AND-ing a byte with the
complement of the bit. -/
def cd32Register (st tr sq cr ci lgrp rgrp : Bool) : Nat :=
  let v0 := 0xFF
  let v1 := if st then v0 &&& (0xFF ^^^ BTN_START) else v0
  let v2 := if tr then v1 &&& (0xFF ^^^ BTN_GREEN) else v1
  let v3 := if sq then v2 &&& (0xFF ^^^ BTN_RED) else v2
  let v4 := if cr then v3 &&& (0xFF ^^^ BTN_BLUE) else v3
  let v5 := if ci then v4 &&& (0xFF ^^^ BTN_YELLOW) else v4
  let v6 := if lgrp then v5 &&& (0xFF ^^^ BTN_FRONT_L) else v5
  let v7 := if rgrp then v6 &&& (0xFF ^^^ BTN_FRONT_R) else v6
  v7

/-- Refresh of buttonsLive performed by handleCD32Pad: the masking
sequence applied to Start, Triangle, Square, Cross, Circle and the two
shoulder groups, each group pressed when any of the three buttons of
that side is pressed. -/
def handleCD32PadButtons (s : PS2Snapshot) : Nat :=
  cd32Register s.startBtn s.triangle s.square s.cross s.circle
    (s.l1 || s.l2 || s.l3) (s.r1 || s.r2 || s.r3)

/-- Effect of one main-loop cycle on buttonsLive: the loop dispatches on
the current mode, and only handleCD32Pad (run in MODE_CD32) writes
buttonsLive; handleJoystick and handleMouse leave it untouched. -/
def loopButtonsLive (m : PadMode) (s : PS2Snapshot) (prev : Nat) : Nat :=
  match m with
  | PadMode.MODE_CD32 => handleCD32PadButtons s
  | _ => prev

/-- Value of buttonsLive after a sequence of main-loop cycles, each given
by the mode it runs in and the controller snapshot it reads, starting
from the power-on value. -/
def buttonsLiveAfter (cycles : List (PadMode × PS2Snapshot)) : Nat :=
  cycles.foldl (fun prev c => loopButtonsLive c.1 c.2 prev) buttonsLiveInit

/-- Concrete snapshot: Start pressed, everything else released, all four
axes at the idle value. -/
def snapStartOnly : PS2Snapshot :=
  { padUp := false, padDown := false, padLeft := false, padRight := false
    square := false, cross := false, triangle := false, circle := false
    startBtn := true, selectBtn := false
    l1 := false, l2 := false, l3 := false
    r1 := false, r2 := false, r3 := false
    lx := 127, ly := 127, rx := 127, ry := 127 }

/-! ## Button mapping engine -/

/-- Standard two-button joystick signal produced by the mapping profiles
(struct TwoButtonJoystick); true means pressed. -/
structure TwoButtonJoystick where
  up : Bool
  down : Bool
  left : Bool
  right : Bool
  b1 : Bool
  b2 : Bool
deriving DecidableEq, Repr

/-- Left flag of mapAnalogStickHorizontal: deltaLX below minus the dead
zone, where deltaLX is the left-stick X value minus the idle value. -/
def analogLeft (s : PS2Snapshot) : Bool :=
  decide ((s.lx : Int) - ANALOG_IDLE_VALUE < -ANALOG_DEAD_ZONE)

/-- Right flag of mapAnalogStickHorizontal: deltaLX above the dead zone. -/
def analogRight (s : PS2Snapshot) : Bool :=
  decide ((s.lx : Int) - ANALOG_IDLE_VALUE > ANALOG_DEAD_ZONE)

/-- Up flag of mapAnalogStickVertical: deltaLY below minus the dead zone. -/
def analogUp (s : PS2Snapshot) : Bool :=
  decide ((s.ly : Int) - ANALOG_IDLE_VALUE < -ANALOG_DEAD_ZONE)

/-- Down flag of mapAnalogStickVertical: deltaLY above the dead zone. -/
def analogDown (s : PS2Snapshot) : Bool :=
  decide ((s.ly : Int) - ANALOG_IDLE_VALUE > ANALOG_DEAD_ZONE)

/-- mapJoystickNormal: both analog axes OR-ed with the digital pad;
button 1 is Square or any right shoulder button, button 2 is Cross or
any left shoulder button. -/
def mapJoystickNormal (s : PS2Snapshot) : TwoButtonJoystick :=
  { up := analogUp s || s.padUp
    down := analogDown s || s.padDown
    left := analogLeft s || s.padLeft
    right := analogRight s || s.padRight
    b1 := s.square || s.r1 || s.r2 || s.r3
    b2 := s.cross || s.l1 || s.l2 || s.l3 }

/-- mapJoystickRacing1: horizontal analog plus digital left/right for
steering; up is digital-up or Square, down is digital-down or Cross, and
the final conditional of the source clears up whenever down holds. -/
def mapJoystickRacing1 (s : PS2Snapshot) : TwoButtonJoystick :=
  { up := if s.padDown || s.cross then false else (s.padUp || s.square)
    down := s.padDown || s.cross
    left := analogLeft s || s.padLeft
    right := analogRight s || s.padRight
    b1 := s.triangle || s.r1 || s.r2 || s.r3
    b2 := s.circle || s.l1 || s.l2 || s.l3 }

/-- mapJoystickRacing2: same steering; up is digital-up, R1 or R2, down
is digital-down, Cross, L1 or L2, with the same clearing of up whenever
down holds. -/
def mapJoystickRacing2 (s : PS2Snapshot) : TwoButtonJoystick :=
  { up := if s.padDown || s.cross || s.l1 || s.l2 then false
          else (s.padUp || s.r1 || s.r2)
    down := s.padDown || s.cross || s.l1 || s.l2
    left := analogLeft s || s.padLeft
    right := analogRight s || s.padRight
    b1 := s.square || s.r3
    b2 := s.triangle || s.l3 }

/-- mapJoystickPlatform: digital-up overrides analog up by assignment and
is then OR-ed with Cross; the other three directions are analog OR
digital. -/
def mapJoystickPlatform (s : PS2Snapshot) : TwoButtonJoystick :=
  { up := s.padUp || s.cross
    down := analogDown s || s.padDown
    left := analogLeft s || s.padLeft
    right := analogRight s || s.padRight
    b1 := s.square || s.r1 || s.r2 || s.r3
    b2 := s.triangle || s.l1 || s.l2 || s.l3 }

/-- Dispatch through the joyMappingFunc function pointer: the mapping
function selected by the active profile. -/
def applyProfile : JoyButtonMapping → PS2Snapshot → TwoButtonJoystick
  | JoyButtonMapping.JMAP_NORMAL => mapJoystickNormal
  | JoyButtonMapping.JMAP_RACING1 => mapJoystickRacing1
  | JoyButtonMapping.JMAP_RACING2 => mapJoystickRacing2
  | JoyButtonMapping.JMAP_PLATFORM => mapJoystickPlatform

/-! ## Polled mode transitions (handleJoystick / handleMouse) -/

/-- Mode and profile after one handleJoystick pass: the right-stick
deflection test comes first and switches to mouse mode; otherwise, if
Select is held, one of four buttons reselects the profile and no output
is produced; otherwise the mode is unchanged. -/
def handleJoystickStep (s : PS2Snapshot) (prof : JoyButtonMapping) :
    PadMode × JoyButtonMapping :=
  if |(s.rx : Int) - ANALOG_IDLE_VALUE| > ANALOG_DEAD_ZONE ∨
     |(s.ry : Int) - ANALOG_IDLE_VALUE| > ANALOG_DEAD_ZONE then
    (PadMode.MODE_MOUSE, prof)
  else if s.selectBtn then
    if s.square then (PadMode.MODE_JOYSTICK, JoyButtonMapping.JMAP_NORMAL)
    else if s.triangle then (PadMode.MODE_JOYSTICK, JoyButtonMapping.JMAP_RACING1)
    else if s.circle then (PadMode.MODE_JOYSTICK, JoyButtonMapping.JMAP_RACING2)
    else if s.cross then (PadMode.MODE_JOYSTICK, JoyButtonMapping.JMAP_PLATFORM)
    else (PadMode.MODE_JOYSTICK, prof)
  else (PadMode.MODE_JOYSTICK, prof)

/-- Mode after one handleMouse pass: any digital-pad press returns to
joystick mode before any other processing; otherwise mouse mode stays. -/
def handleMouseNextMode (s : PS2Snapshot) : PadMode :=
  if s.padUp || s.padDown || s.padLeft || s.padRight then
    PadMode.MODE_JOYSTICK
  else PadMode.MODE_MOUSE

/-! ## CD32 mode entry, timeout and restoration

The mode-select line logic lives in onPadModeChange (both edges) and in
the tail of loop. The state it touches is the current mode, the wasMouse
flag recorded on CD32 entry, and lastSwitchedTime, the millis timestamp
of the last deasserted (rising) edge, 0 when disarmed. The loopTick event
models the timeout check at the end of one loop iteration; the per-mode
handler dispatched earlier in the same iteration never writes wasMouse or
lastSwitchedTime and, while the mode is MODE_CD32, never writes mode, so
for runs that stay in CD32 mode until restoration this step is the whole
effect of the iteration on this state. Times are Nat milliseconds; the C
unsigned subtraction agrees with Nat subtraction for monotone times. -/
structure ModeState where
  mode : PadMode
  wasMouse : Bool
  lastSwitchedTime : Nat
deriving DecidableEq, Repr

/-- Events seen by the mode-line logic: a falling (asserted) edge on
PIN_PADMODE, a rising (deasserted) edge, or the timeout check of one
main-loop iteration, each carrying the millis time it runs at. -/
inductive ModeEvent where
  | padLow (t : Nat)
  | padHigh (t : Nat)
  | loopTick (t : Nat)
deriving DecidableEq, Repr

/-- One event of the mode-line logic. padLow: onPadModeChange with the
line low enters CD32 mode if not already there, recording in wasMouse
whether mouse mode was active, and does not touch lastSwitchedTime.
padHigh: onPadModeChange with the line high stores the current time in
lastSwitchedTime. loopTick: the end of loop restores the recorded mode
and disarms the timer when lastSwitchedTime is nonzero and more than
TIMEOUT_CD32_MODE ago. -/
def modeStep (s : ModeState) : ModeEvent → ModeState
  | ModeEvent.padLow _ =>
      if s.mode ≠ PadMode.MODE_CD32 then
        { mode := PadMode.MODE_CD32
          wasMouse := decide (s.mode = PadMode.MODE_MOUSE)
          lastSwitchedTime := s.lastSwitchedTime }
      else s
  | ModeEvent.padHigh t => { s with lastSwitchedTime := t }
  | ModeEvent.loopTick t =>
      if s.lastSwitchedTime > 0 ∧ t - s.lastSwitchedTime > TIMEOUT_CD32_MODE then
        { mode := if s.wasMouse then PadMode.MODE_MOUSE else PadMode.MODE_JOYSTICK
          wasMouse := s.wasMouse
          lastSwitchedTime := 0 }
      else s

/-- Run of the mode-line logic over a list of events. -/
def modeRun (s : ModeState) (es : List ModeEvent) : ModeState :=
  es.foldl modeStep s

/-- Events allowed between the arming deassertion at time t0 and the
expiring loop iteration in the amended timeout statement: asserted edges
at any time, and loop iterations at most TIMEOUT_CD32_MODE after t0. -/
def midOk (t0 : Nat) : ModeEvent → Bool
  | ModeEvent.padLow _ => true
  | ModeEvent.padHigh _ => false
  | ModeEvent.loopTick u => decide (u - t0 ≤ TIMEOUT_CD32_MODE)

/-! ## Output pins and the quadrature mouse emulator -/

/-- One ATmega I/O pin as manipulated through pinMode and digitalWrite:
the direction bit and the output-register level. An output pin drives its
register level on the line; digitalRead returns the line level, which on
an output pin is the register level. -/
structure PinState where
  isOutput : Bool
  reg : Bool
deriving DecidableEq, Repr

/-- buttonPress: pinMode(pin, OUTPUT); the source comments that low is
implicit because the output register of the pin holds low. -/
def buttonPress (p : PinState) : PinState := { p with isOutput := true }

/-- buttonRelease: pinMode(pin, INPUT), leaving the pin high impedance. -/
def buttonRelease (p : PinState) : PinState := { p with isOutput := false }

/-- The pin is an output actively driving the high level. -/
def drivenHigh (p : PinState) : Bool := p.isOutput && p.reg

/-- The pin is an output actively driving the low level. -/
def drivenLow (p : PinState) : Bool := p.isOutput && !p.reg

/-- The pin is an input with the pull-up disabled: floating. -/
def floatingNoPullup (p : PinState) : Bool := !p.isOutput && !p.reg

/-- Arduino map with C integer arithmetic; the division of the C source
truncates toward zero, which is Int.tdiv. -/
def arduinoMap (x inMin inMax outMin outMax : Int) : Int :=
  Int.tdiv ((x - inMin) * (outMax - outMin)) (inMax - inMin) + outMin

/-- Quadrature toggle period computed by handleMouse for a deflection
magnitude: map(deltaAbs, ANALOG_DEAD_ZONE, ANALOG_IDLE_VALUE,
MOUSE_SLOW_DELTA, MOUSE_FAST_DELTA). -/
def quadPeriod (dabs : Nat) : Int :=
  arduinoMap (dabs : Int) ANALOG_DEAD_ZONE ANALOG_IDLE_VALUE
    MOUSE_SLOW_DELTA MOUSE_FAST_DELTA

/-- Per-axis quadrature state: the leading and trailing pin of the axis
for the current deflection sign and the axis timer (the static tx or ty
of handleMouse). -/
structure AxisState where
  lead : PinState
  trail : PinState
  t0 : Nat
deriving DecidableEq, Repr

/-- First timed write of the axis block of handleMouse: when a full
period elapsed since the axis timer, invert the leading pin level and
reset the timer to now. -/
def axisLeadStep (p now : Nat) (s : AxisState) : AxisState :=
  if p ≤ now - s.t0 then
    { s with lead := { s.lead with reg := !s.lead.reg }, t0 := now }
  else s

/-- Second timed write of the axis block: when half a period elapsed
since the (possibly just reset) timer, write the negation of the current
leading pin level to the trailing pin. -/
def axisTrailStep (p now : Nat) (s : AxisState) : AxisState :=
  if p / 2 ≤ now - s.t0 then
    { s with trail := { s.trail with reg := !s.lead.reg } }
  else s

/-- One handleMouse pass over one axis beyond the dead zone, given the
toggle period p and the current millis value: the two timed writes in
source order. -/
def axisQuadStep (p now : Nat) (s : AxisState) : AxisState :=
  axisTrailStep p now (axisLeadStep p now s)

/-- Horizontal-axis part of handleMouse: from the right-stick X value,
the current time, the PIN_RIGHT and PIN_DOWN states and the tx timer,
produce their new values. Below the dead zone nothing changes; beyond
it the period comes from quadPeriod and the deflection sign picks
PIN_RIGHT as leading (positive) or PIN_DOWN as leading (negative). -/
def handleMouseX (rxv now : Nat) (rightPin downPin : PinState) (tx : Nat) :
    PinState × PinState × Nat :=
  let deltaX : Int := (rxv : Int) - ANALOG_IDLE_VALUE
  if |deltaX| > ANALOG_DEAD_ZONE then
    let p := (quadPeriod deltaX.natAbs).toNat
    if deltaX > 0 then
      let r := axisQuadStep p now ⟨rightPin, downPin, tx⟩
      (r.lead, r.trail, r.t0)
    else
      let r := axisQuadStep p now ⟨downPin, rightPin, tx⟩
      (r.trail, r.lead, r.t0)
  else (rightPin, downPin, tx)

/-- Vertical-axis part of handleMouse: from the right-stick Y value, the
current time, the PIN_LEFT and PIN_UP states and the ty timer, produce
their new values; positive deflection picks PIN_LEFT as leading,
negative picks PIN_UP. -/
def handleMouseY (ryv now : Nat) (leftPin upPin : PinState) (ty : Nat) :
    PinState × PinState × Nat :=
  let deltaY : Int := (ryv : Int) - ANALOG_IDLE_VALUE
  if |deltaY| > ANALOG_DEAD_ZONE then
    let p := (quadPeriod deltaY.natAbs).toNat
    if deltaY > 0 then
      let r := axisQuadStep p now ⟨leftPin, upPin, ty⟩
      (r.lead, r.trail, r.t0)
    else
      let r := axisQuadStep p now ⟨upPin, leftPin, ty⟩
      (r.trail, r.lead, r.t0)
  else (leftPin, upPin, ty)

/-- Direction pins and axis timers touched by the motion part of
handleMouse. -/
structure MouseMotionState where
  upPin : PinState
  downPin : PinState
  leftPin : PinState
  rightPin : PinState
  tx : Nat
  ty : Nat
deriving DecidableEq, Repr

/-- Motion part of one handleMouse pass: the horizontal block runs on
PIN_RIGHT, PIN_DOWN and tx, the vertical block on PIN_LEFT, PIN_UP and
ty; the two blocks touch disjoint pins and timers. -/
def handleMouseMotion (s : PS2Snapshot) (now : Nat) (st : MouseMotionState) :
    MouseMotionState :=
  let x := handleMouseX s.rx now st.rightPin st.downPin st.tx
  let y := handleMouseY s.ry now st.leftPin st.upPin st.ty
  { upPin := y.2.1, downPin := x.2.1, leftPin := y.1, rightPin := x.1
    tx := x.2.2, ty := y.2.2 }

/-! ## Pin operations of the polled handlers -/

/-- Amiga-port pin numbers of the firmware. -/
def PIN_UP : Nat := 4

/-- Amiga pin 2. -/
def PIN_DOWN : Nat := 5

/-- Amiga pin 3. -/
def PIN_LEFT : Nat := 6

/-- Amiga pin 4. -/
def PIN_RIGHT : Nat := 7

/-- Amiga pin 6. -/
def PIN_BTN1 : Nat := 3

/-- Amiga pin 9. -/
def PIN_BTN2 : Nat := 8

/-- A single operation applied by a handler to an output pin: the
open-collector pair buttonPress / buttonRelease, or a direct
digitalWrite of a level. -/
inductive PinOp where
  | press (pin : Nat)
  | release (pin : Nat)
  | writeLevel (pin : Nat) (level : Bool)
deriving DecidableEq, Repr

/-- The conditional pattern every button output of the polled handlers
uses: buttonPress when the mapped flag holds, buttonRelease otherwise. -/
def pressOrRelease (b : Bool) (pin : Nat) : PinOp :=
  if b then PinOp.press pin else PinOp.release pin

/-- Pin operations of the output stage of handleJoystick applied to the
mapped TwoButtonJoystick. -/
def handleJoystickPinOps (j : TwoButtonJoystick) : List PinOp :=
  [pressOrRelease j.up PIN_UP, pressOrRelease j.down PIN_DOWN,
   pressOrRelease j.left PIN_LEFT, pressOrRelease j.right PIN_RIGHT,
   pressOrRelease j.b1 PIN_BTN1, pressOrRelease j.b2 PIN_BTN2]

/-- Direction-pin operations of handleCD32Pad: each direction is pressed
when the left-stick deflection indicates it or the matching digital-pad
button is pressed. -/
def handleCD32PadPinOps (s : PS2Snapshot) : List PinOp :=
  [pressOrRelease (analogUp s || s.padUp) PIN_UP,
   pressOrRelease (analogDown s || s.padDown) PIN_DOWN,
   pressOrRelease (analogLeft s || s.padLeft) PIN_LEFT,
   pressOrRelease (analogRight s || s.padRight) PIN_RIGHT]

/-- Button-pin operations of handleMouse: the left shoulder group on
PIN_BTN1, the right shoulder group on PIN_BTN2. -/
def handleMouseButtonPinOps (s : PS2Snapshot) : List PinOp :=
  [pressOrRelease (s.l1 || s.l2 || s.l3) PIN_BTN1,
   pressOrRelease (s.r1 || s.r2 || s.r3) PIN_BTN2]

/-- An operation honours open-collector semantics when it is one of the
buttonPress / buttonRelease pair, never a direct level write. -/
def isOpenCollectorOp : PinOp → Bool
  | PinOp.press _ => true
  | PinOp.release _ => true
  | PinOp.writeLevel _ _ => false

/-- Direction outputs of handleCD32Pad as a record, parametrised by the
globally selected mapping profile, which the source function never
consults. -/
structure DirectionOut where
  up : Bool
  down : Bool
  left : Bool
  right : Bool
deriving DecidableEq, Repr

/-- Direction flags driven by handleCD32Pad: analog (left stick beyond
the dead zone) OR digital pad, for each direction; the selected profile
is in scope through the global joyMappingFunc but is not read. -/
def handleCD32PadDirections (_prof : JoyButtonMapping) (s : PS2Snapshot) :
    DirectionOut :=
  { up := analogUp s || s.padUp
    down := analogDown s || s.padDown
    left := analogLeft s || s.padLeft
    right := analogRight s || s.padRight }

/-- Concrete snapshot: digital up and down both pressed (together with an
accelerate face button), axes idle. -/
def snapBrake : PS2Snapshot :=
  { snapStartOnly with startBtn := false, padUp := true, padDown := true }

/-- Concrete snapshot: right stick fully deflected right, Select held,
axes otherwise idle. -/
def snapRightStick : PS2Snapshot :=
  { snapStartOnly with startBtn := false, selectBtn := true, rx := 255 }

/-! ## Helper lemmas -/

/-- The bit emitted for shift position i is the i-th bit of the register. -/
theorem shiftRight_and_one_eq_cond (n i : Nat) :
    (n >>> i) &&& 1 = cond (n.testBit i) 1 0 := by
  rw [Nat.and_one_is_mod, Nat.testBit_to_div_mod, Nat.shiftRight_eq_div_pow]
  rcases Nat.mod_two_eq_zero_or_one (n / 2 ^ i) with h | h <;> simp [h]

/-- Closed form of the clock-edge output sequence. -/
theorem clockEdgeOutputs_eq_map : ∀ (k b : Nat),
    clockEdgeOutputs b k = (List.range k).map (fun i => (b >>> i) &&& 1) := by
  intro k
  induction k with
  | zero => intro b; rfl
  | succ k ih =>
      intro b
      rw [clockEdgeOutputs, ih (b >>> 1), List.range_succ_eq_map, List.map_cons,
        List.map_map]
      refine congrArg₂ _ rfl (List.map_congr_left ?_)
      intro i _
      simp only [Function.comp_apply, Nat.succ_eq_add_one]
      rw [Nat.add_comm i 1, Nat.shiftRight_add]

/-- Shifting out of the zero register yields only zeros. -/
theorem clockEdgeOutputs_zero : ∀ k, clockEdgeOutputs 0 k = List.replicate k 0 := by
  intro k
  induction k with
  | zero => rfl
  | succ k ih => rw [clockEdgeOutputs, Nat.zero_shiftRight, ih]; rfl

/-- Splitting a clock-edge output sequence. -/
theorem clockEdgeOutputs_append : ∀ (j k b : Nat),
    clockEdgeOutputs b (j + k) = clockEdgeOutputs b j ++ clockEdgeOutputs (b >>> j) k := by
  intro j
  induction j with
  | zero => intro k b; simp [clockEdgeOutputs]
  | succ j ih =>
      intro k b
      have h1 : j + 1 + k = (j + k) + 1 := by omega
      rw [h1, clockEdgeOutputs, clockEdgeOutputs, ih k (b >>> 1), List.cons_append,
        show j + 1 = 1 + j from Nat.add_comm j 1, Nat.shiftRight_add]

/-- One output value per clock edge. -/
theorem clockEdgeOutputs_length : ∀ (k b : Nat), (clockEdgeOutputs b k).length = k := by
  intro k
  induction k with
  | zero => intro b; rfl
  | succ k ih => intro b; rw [clockEdgeOutputs, List.length_cons, ih]

/-- The masking sequence keeps the reserved bit 7 set. -/
theorem cd32Register_testBit7 : ∀ st tr sq cr ci lgrp rgrp : Bool,
    (cd32Register st tr sq cr ci lgrp rgrp).testBit 7 = true := by decide

/-- Every refresh of the live register keeps the reserved bit 7 set. -/
theorem handleCD32PadButtons_testBit7 (s : PS2Snapshot) :
    (handleCD32PadButtons s).testBit 7 = true :=
  cd32Register_testBit7 s.startBtn s.triangle s.square s.cross s.circle
    (s.l1 || s.l2 || s.l3) (s.r1 || s.r2 || s.r3)

/-! ## Claim theorems -/

/-- C1: for an 8-bit live register value r with the reserved high bit set,
one strobe-asserted edge (latch, output bit 0, shift) followed by 8 + m
clock rising edges (each outputting the current LSB and shifting) emits
exactly the 8 bits of r in LSB-first order followed by m + 1 zero bits
(reported as pressed), one bit per edge. -/
theorem cd32_bitstream_lsb_first (r m : Nat) (hr : r < 256)
    (hbit : r.testBit 7 = true) :
    strobeThenClocks r (8 + m) =
      ((List.range 8).map fun i => cond (r.testBit i) 1 0) ++
        List.replicate (m + 1) 0 ∧
    (strobeThenClocks r (8 + m)).length = (8 + m) + 1 := by
  have hs : strobeThenClocks r (8 + m) = clockEdgeOutputs r (8 + (m + 1)) := rfl
  have hshift : r >>> 8 = 0 := by
    rw [Nat.shiftRight_eq_div_pow]
    exact Nat.div_eq_of_lt (by omega)
  constructor
  · rw [hs, clockEdgeOutputs_append 8 (m + 1) r, hshift, clockEdgeOutputs_zero,
      clockEdgeOutputs_eq_map]
    refine congrArg₂ _ (List.map_congr_left ?_) rfl
    intro i _
    exact shiftRight_and_one_eq_cond r i
  · rw [hs, clockEdgeOutputs_length]
    omega

/-- Witness for cd32_bitstream_lsb_first: register value 181 (bit 7 set),
nine clock edges after the strobe. -/
theorem cd32_bitstream_lsb_first_witness :
    strobeThenClocks 181 (8 + 1) =
      ((List.range 8).map fun i => cond ((181 : Nat).testBit i) 1 0) ++
        List.replicate 2 0 ∧
    (strobeThenClocks 181 (8 + 1)).length = (8 + 1) + 1 :=
  cd32_bitstream_lsb_first 181 1 (by decide) (by decide)

/-- C2: in every reachable state, the value of the live register handed
to the shifter on a strobe-asserted edge has bit 7 set: the power-on
value has it set, and every per-cycle refresh starts from all-ones and
clears only bits 0 to 6. -/
theorem buttonsLive_msb_always_set (cycles : List (PadMode × PS2Snapshot)) :
    (buttonsLiveAfter cycles).testBit 7 = true := by
  have general : ∀ (cs : List (PadMode × PS2Snapshot)) (prev : Nat),
      prev.testBit 7 = true →
      (cs.foldl (fun p c => loopButtonsLive c.1 c.2 p) prev).testBit 7 = true := by
    intro cs
    induction cs with
    | nil => intro prev h; exact h
    | cons c cs ih =>
        intro prev h
        rw [List.foldl_cons]
        apply ih
        rcases c with ⟨m, s⟩
        cases m with
        | MODE_JOYSTICK => exact h
        | MODE_MOUSE => exact h
        | MODE_CD32 => exact handleCD32PadButtons_testBit7 s
  exact general cycles buttonsLiveInit (by decide)

/-- C9 counterexample: in joystick mode a polling cycle does not refresh
the live register from the snapshot; with Start pressed the register
keeps its previous value 0x80 instead of the refreshed value 0xBF. -/
theorem buttonsLive_not_refreshed_in_joystick :
    loopButtonsLive PadMode.MODE_JOYSTICK snapStartOnly buttonsLiveInit = buttonsLiveInit ∧
    handleCD32PadButtons snapStartOnly = 0xBF ∧
    buttonsLiveInit ≠ 0xBF := by decide

/-- C9 amended: on every polling cycle that runs in CD32 mode, the live
register is refreshed from the snapshot into the active-low layout with
Start on bit 6, the left shoulder group on bit 5, the right shoulder
group on bit 4, Green (Triangle) on bit 3, Yellow (Circle) on bit 2,
Red (Square) on bit 1, Blue (Cross) on bit 0, and the reserved bit 7
set; cycles in the other modes leave the register untouched. -/
theorem cd32_buttonsLive_layout (s : PS2Snapshot) (prev : Nat) :
    loopButtonsLive PadMode.MODE_CD32 s prev = handleCD32PadButtons s ∧
    (handleCD32PadButtons s).testBit 7 = true ∧
    (handleCD32PadButtons s).testBit 6 = !s.startBtn ∧
    (handleCD32PadButtons s).testBit 5 = !(s.l1 || s.l2 || s.l3) ∧
    (handleCD32PadButtons s).testBit 4 = !(s.r1 || s.r2 || s.r3) ∧
    (handleCD32PadButtons s).testBit 3 = !s.triangle ∧
    (handleCD32PadButtons s).testBit 2 = !s.circle ∧
    (handleCD32PadButtons s).testBit 1 = !s.square ∧
    (handleCD32PadButtons s).testBit 0 = !s.cross := by
  refine ⟨rfl, ?_⟩
  have key : ∀ st tr sq cr ci lgrp rgrp : Bool,
      (cd32Register st tr sq cr ci lgrp rgrp).testBit 7 = true ∧
      (cd32Register st tr sq cr ci lgrp rgrp).testBit 6 = !st ∧
      (cd32Register st tr sq cr ci lgrp rgrp).testBit 5 = !lgrp ∧
      (cd32Register st tr sq cr ci lgrp rgrp).testBit 4 = !rgrp ∧
      (cd32Register st tr sq cr ci lgrp rgrp).testBit 3 = !tr ∧
      (cd32Register st tr sq cr ci lgrp rgrp).testBit 2 = !ci ∧
      (cd32Register st tr sq cr ci lgrp rgrp).testBit 1 = !sq ∧
      (cd32Register st tr sq cr ci lgrp rgrp).testBit 0 = !cr := by decide
  exact key s.startBtn s.triangle s.square s.cross s.circle
    (s.l1 || s.l2 || s.l3) (s.r1 || s.r2 || s.r3)

/-- While armed at t0 and in CD32 mode, events allowed by midOk leave the
mode-line state unchanged: asserted edges re-enter the branch that is a
no-op in CD32 mode, and loop iterations within the timeout window fail
the expiry test. -/
theorem modeRun_mid_invariant (w : Bool) (t0 : Nat) :
    ∀ mid : List ModeEvent, (∀ e ∈ mid, midOk t0 e = true) →
      modeRun ⟨PadMode.MODE_CD32, w, t0⟩ mid = ⟨PadMode.MODE_CD32, w, t0⟩ := by
  intro mid
  induction mid with
  | nil => intro _; rfl
  | cons e es ih =>
      intro h
      have he : midOk t0 e = true := h e (List.mem_cons_self e es)
      have hes : ∀ x ∈ es, midOk t0 x = true := fun x hx => h x (List.mem_cons_of_mem e hx)
      have hstep : modeStep ⟨PadMode.MODE_CD32, w, t0⟩ e = ⟨PadMode.MODE_CD32, w, t0⟩ := by
        cases e with
        | padLow u => simp [modeStep]
        | padHigh u => simp [midOk] at he
        | loopTick u =>
            have hu : u - t0 ≤ TIMEOUT_CD32_MODE := by
              simpa [midOk] using he
            simp only [modeStep]
            rw [if_neg]
            intro hc
            omega
      show modeRun (modeStep ⟨PadMode.MODE_CD32, w, t0⟩ e) es = _
      rw [hstep]
      exact ih hes

/-- C3 counterexample: the claim that restoration never fires unless the
line stayed deasserted and edge-free for the whole window fails. From
joystick mode: asserted edge at 5 enters CD32 mode, deasserted edge at 10
arms the timer, a new asserted edge at 50 leaves the timer armed (the
asserted branch of onPadModeChange does not clear lastSwitchedTime), and
with the line still asserted the loop iteration at 250 finds
250 - 10 > 200 and restores joystick mode. -/
theorem cd32_timeout_fires_while_asserted :
    modeRun ⟨PadMode.MODE_JOYSTICK, false, 0⟩
        [ModeEvent.padLow 5, ModeEvent.padHigh 10, ModeEvent.padLow 50] =
      ⟨PadMode.MODE_CD32, false, 10⟩ ∧
    modeStep ⟨PadMode.MODE_CD32, false, 10⟩ (ModeEvent.loopTick 250) =
      ⟨PadMode.MODE_JOYSTICK, false, 0⟩ := by decide

/-- C3 amended: entering CD32 mode on an asserted edge records whether
mouse mode was active; after a deasserted edge at a nonzero time t0,
any run of further asserted edges and of loop iterations at most
TIMEOUT_CD32_MODE after t0 changes nothing, and the first loop iteration
more than TIMEOUT_CD32_MODE after t0 restores the recorded mode and
disarms the timer - whether or not the line was re-asserted meanwhile. -/
theorem cd32_timeout_restores_recorded_mode :
    (∀ (m : PadMode) (w : Bool) (l u : Nat), m ≠ PadMode.MODE_CD32 →
        modeStep ⟨m, w, l⟩ (ModeEvent.padLow u) =
          ⟨PadMode.MODE_CD32, decide (m = PadMode.MODE_MOUSE), l⟩) ∧
    (∀ (w : Bool) (t0 t : Nat) (mid : List ModeEvent),
        0 < t0 → (∀ e ∈ mid, midOk t0 e = true) → TIMEOUT_CD32_MODE < t - t0 →
        modeRun ⟨PadMode.MODE_CD32, w, 0⟩
            (ModeEvent.padHigh t0 :: (mid ++ [ModeEvent.loopTick t])) =
          ⟨if w then PadMode.MODE_MOUSE else PadMode.MODE_JOYSTICK, w, 0⟩) := by
  constructor
  · intro m w l u hm
    cases m with
    | MODE_JOYSTICK => simp [modeStep]
    | MODE_MOUSE => simp [modeStep]
    | MODE_CD32 => exact absurd rfl hm
  · intro w t0 t mid ht0 hmid ht
    show modeRun (modeStep ⟨PadMode.MODE_CD32, w, 0⟩ (ModeEvent.padHigh t0))
        (mid ++ [ModeEvent.loopTick t]) = _
    have h1 : modeStep ⟨PadMode.MODE_CD32, w, 0⟩ (ModeEvent.padHigh t0) =
        ⟨PadMode.MODE_CD32, w, t0⟩ := rfl
    rw [h1]
    unfold modeRun
    rw [List.foldl_append]
    have h2 := modeRun_mid_invariant w t0 mid hmid
    unfold modeRun at h2
    rw [h2]
    show modeStep ⟨PadMode.MODE_CD32, w, t0⟩ (ModeEvent.loopTick t) = _
    simp only [modeStep]
    rw [if_pos ⟨ht0, ht⟩]

/-- Witness for cd32_timeout_restores_recorded_mode: the timer armed at
10, an asserted edge at 50 and an in-window loop iteration at 100 change
nothing, and the loop iteration at 300 restores mouse mode. -/
theorem cd32_timeout_restores_recorded_mode_witness :
    modeRun ⟨PadMode.MODE_CD32, true, 0⟩
        (ModeEvent.padHigh 10 ::
          ([ModeEvent.padLow 50, ModeEvent.loopTick 100] ++ [ModeEvent.loopTick 300])) =
      ⟨PadMode.MODE_MOUSE, true, 0⟩ := by
  have h := cd32_timeout_restores_recorded_mode.2 true 10 300
    [ModeEvent.padLow 50, ModeEvent.loopTick 100] (by decide) (by decide) (by decide)
  simpa using h

/-- C4: in the Racing1 and Racing2 profiles, a produced down signal
forces the up signal false, whatever else the snapshot asserts: braking
dominates acceleration. -/
theorem racing_down_forces_up_false (s : PS2Snapshot) :
    ((mapJoystickRacing1 s).down = true → (mapJoystickRacing1 s).up = false) ∧
    ((mapJoystickRacing2 s).down = true → (mapJoystickRacing2 s).up = false) := by
  constructor
  · intro h
    simp only [mapJoystickRacing1] at h ⊢
    simp [h]
  · intro h
    simp only [mapJoystickRacing2] at h ⊢
    simp [h]

/-- Witness for racing_down_forces_up_false: digital up and down pressed
together yield up false in both racing profiles. -/
theorem racing_down_forces_up_false_witness :
    (mapJoystickRacing1 snapBrake).up = false ∧
    (mapJoystickRacing2 snapBrake).up = false :=
  ⟨(racing_down_forces_up_false snapBrake).1 (by decide),
   (racing_down_forces_up_false snapBrake).2 (by decide)⟩

/-- C5: from joystick mode, a right-stick deflection beyond the dead zone
on either axis switches to mouse mode on the next polling cycle whatever
else the snapshot asserts, Select included; from mouse mode, any
digital-pad press switches back to joystick mode whatever else the
snapshot asserts. -/
theorem mode_transition_priority (s : PS2Snapshot) (prof : JoyButtonMapping) :
    ((|(s.rx : Int) - ANALOG_IDLE_VALUE| > ANALOG_DEAD_ZONE ∨
      |(s.ry : Int) - ANALOG_IDLE_VALUE| > ANALOG_DEAD_ZONE) →
        (handleJoystickStep s prof).1 = PadMode.MODE_MOUSE) ∧
    ((s.padUp || s.padDown || s.padLeft || s.padRight) = true →
        handleMouseNextMode s = PadMode.MODE_JOYSTICK) := by
  constructor
  · intro h
    simp only [handleJoystickStep]
    rw [if_pos h]
  · intro h
    simp only [handleMouseNextMode]
    rw [if_pos h]

/-- Witness for mode_transition_priority: right stick hard right with
Select held still enters mouse mode, and a digital-pad press in mouse
mode returns to joystick mode. -/
theorem mode_transition_priority_witness :
    (handleJoystickStep snapRightStick JoyButtonMapping.JMAP_NORMAL).1 =
      PadMode.MODE_MOUSE ∧
    handleMouseNextMode snapBrake = PadMode.MODE_JOYSTICK :=
  ⟨(mode_transition_priority snapRightStick JoyButtonMapping.JMAP_NORMAL).1
      (by decide),
   (mode_transition_priority snapBrake JoyButtonMapping.JMAP_NORMAL).2 (by decide)⟩

set_option maxRecDepth 4000 in
/-- C6: the quadrature toggle period computed by map with C integer
arithmetic is antitone in the deflection magnitude: for magnitudes d1
and d2 strictly beyond the dead zone with d1 below d2 (the magnitude of
an 8-bit axis reading around idle 127 is at most 128), the period at d2
is at most the period at d1. -/
theorem quadPeriod_antitone (d1 d2 : Nat) (h1 : 65 < d1) (h12 : d1 < d2)
    (h2 : d2 ≤ 128) : quadPeriod d2 ≤ quadPeriod d1 := by
  have key : ∀ a : Nat, a < 129 → ∀ b : Nat, b < 129 → 65 < a → a < b →
      quadPeriod b ≤ quadPeriod a := by decide
  exact key d1 (by omega) d2 (by omega) h1 h12

/-- Witness for quadPeriod_antitone at the dead-zone boundary and the
maximum deflection. -/
theorem quadPeriod_antitone_witness : quadPeriod 128 ≤ quadPeriod 66 :=
  quadPeriod_antitone 66 128 (by decide) (by decide) (by decide)

/-- C7 counterexample: output lines are not uniformly open-collector. In
mouse mode the direction pins are configured as outputs by toMouse, and
the quadrature toggle writes the inverted level back: with the right
stick hard right (value 255), PIN_RIGHT previously driving low and a full
period elapsed, handleMouse drives PIN_RIGHT as a high output. -/
theorem mouse_quadrature_drives_high :
    drivenHigh (handleMouseX 255 100 ⟨true, false⟩ ⟨true, false⟩ 0).1 = true := by
  decide

/-- C7 amended: open-collector semantics are not uniform. A line driven
through buttonPress and buttonRelease behaves open-collector exactly
when its output register holds low: pressing makes it a low output and
never a high one, releasing leaves it a floating input without pull-up.
When the register has been left high - which the push-pull writers of
the firmware can do, since the mouse-mode quadrature toggles and the
CD32 serial data writes drive their pins push-pull including the high
level and nothing clears those registers on mode change - buttonPress
instead drives the pin high and buttonRelease enables the pull-up. The
polled output stages of handleJoystick, the direction stage of
handleCD32Pad and the button stage of handleMouse use only the
buttonPress and buttonRelease pair. -/
theorem open_collector_polled_outputs :
    (∀ p : PinState, p.reg = false →
        drivenLow (buttonPress p) = true ∧
        floatingNoPullup (buttonRelease p) = true ∧
        drivenHigh (buttonPress p) = false ∧
        drivenHigh (buttonRelease p) = false) ∧
    (∀ p : PinState, p.reg = true →
        drivenHigh (buttonPress p) = true ∧
        floatingNoPullup (buttonRelease p) = false) ∧
    (∀ j : TwoButtonJoystick, ∀ op ∈ handleJoystickPinOps j,
        isOpenCollectorOp op = true) ∧
    (∀ s : PS2Snapshot, ∀ op ∈ handleCD32PadPinOps s,
        isOpenCollectorOp op = true) ∧
    (∀ s : PS2Snapshot, ∀ op ∈ handleMouseButtonPinOps s,
        isOpenCollectorOp op = true) := by
  have hpr : ∀ (b : Bool) (pin : Nat), isOpenCollectorOp (pressOrRelease b pin) = true := by
    intro b pin
    cases b <;> rfl
  refine ⟨?_, ?_, ?_, ?_, ?_⟩
  · intro p h
    rcases p with ⟨o, r⟩
    simp only at h
    subst h
    simp [buttonPress, buttonRelease, drivenLow, drivenHigh, floatingNoPullup]
  · intro p h
    rcases p with ⟨o, r⟩
    simp only at h
    subst h
    simp [buttonPress, buttonRelease, drivenHigh, floatingNoPullup]
  · intro j op hop
    simp only [handleJoystickPinOps, List.mem_cons, List.not_mem_nil, or_false] at hop
    rcases hop with rfl | rfl | rfl | rfl | rfl | rfl <;> exact hpr _ _
  · intro s op hop
    simp only [handleCD32PadPinOps, List.mem_cons, List.not_mem_nil, or_false] at hop
    rcases hop with rfl | rfl | rfl | rfl <;> exact hpr _ _
  · intro s op hop
    simp only [handleMouseButtonPinOps, List.mem_cons, List.not_mem_nil, or_false] at hop
    rcases hop with rfl | rfl <;> exact hpr _ _

/-- Witness for open_collector_polled_outputs: a pin with the register
low presses to a driven-low output, a pin whose register was left high
presses to a driven-high output, and a concrete handleJoystick operation
is of the open-collector pair. -/
theorem open_collector_polled_outputs_witness :
    drivenLow (buttonPress ⟨false, false⟩) = true ∧
    drivenHigh (buttonPress ⟨false, true⟩) = true ∧
    isOpenCollectorOp (pressOrRelease true PIN_UP) = true :=
  ⟨(open_collector_polled_outputs.1 ⟨false, false⟩ rfl).1,
   (open_collector_polled_outputs.2.1 ⟨false, true⟩ rfl).1,
   open_collector_polled_outputs.2.2.1 ⟨true, true, true, true, true, true⟩
     (pressOrRelease true PIN_UP) (by decide)⟩

/-- The leading-pin write fires when a full period elapsed. -/
theorem axisLeadStep_fire (p now : Nat) (lp tp : PinState) (t : Nat)
    (h : p ≤ now - t) :
    axisLeadStep p now ⟨lp, tp, t⟩ = ⟨⟨lp.isOutput, !lp.reg⟩, tp, now⟩ := by
  unfold axisLeadStep
  dsimp only
  rw [if_pos h]

/-- The leading-pin write is skipped before a full period elapsed. -/
theorem axisLeadStep_skip (p now : Nat) (lp tp : PinState) (t : Nat)
    (h : now - t < p) :
    axisLeadStep p now ⟨lp, tp, t⟩ = ⟨lp, tp, t⟩ := by
  unfold axisLeadStep
  dsimp only
  rw [if_neg (by omega)]

/-- The trailing-pin write fires from half a period on. -/
theorem axisTrailStep_fire (p now : Nat) (lp tp : PinState) (t : Nat)
    (h : p / 2 ≤ now - t) :
    axisTrailStep p now ⟨lp, tp, t⟩ = ⟨lp, ⟨tp.isOutput, !lp.reg⟩, t⟩ := by
  unfold axisTrailStep
  dsimp only
  rw [if_pos h]

/-- The trailing-pin write is skipped before half a period elapsed. -/
theorem axisTrailStep_skip (p now : Nat) (lp tp : PinState) (t : Nat)
    (h : now - t < p / 2) :
    axisTrailStep p now ⟨lp, tp, t⟩ = ⟨lp, tp, t⟩ := by
  unfold axisTrailStep
  dsimp only
  rw [if_neg (by omega)]

/-- C8: quadrature behaviour of one handleMouse axis with toggle period
p. A pass with a full period elapsed inverts the leading pin level and
resets the axis timer; a pass before half a period changes nothing; from
the steady post-toggle state (trailing level equal to leading level,
timer at the last leading toggle T), a pass in the half-open window from
T plus half a period to T plus a period inverts the trailing pin level
exactly once (later passes in the window rewrite the same level); from
any state, passes at T plus half a period and T plus a period reach the
steady shape again; and the horizontal block depends only on the right
stick X value, PIN_RIGHT, PIN_DOWN and tx while the vertical block
leaves them untouched, the two axes sharing no timer. -/
theorem quadrature_axis_behavior (p : Nat) (hp : 2 ≤ p) :
    (∀ (s : AxisState) (now : Nat), p ≤ now - s.t0 →
        (axisQuadStep p now s).lead.reg = !s.lead.reg ∧
        (axisQuadStep p now s).t0 = now) ∧
    (∀ (s : AxisState) (now : Nat), now - s.t0 < p / 2 →
        axisQuadStep p now s = s) ∧
    (∀ (lp tp : PinState) (t now : Nat), tp.reg = lp.reg →
        p / 2 ≤ now - t → now - t < p →
        axisQuadStep p now ⟨lp, tp, t⟩ = ⟨lp, { tp with reg := !tp.reg }, t⟩) ∧
    (∀ (lp tp : PinState) (t now : Nat), tp.reg = !lp.reg →
        p / 2 ≤ now - t → now - t < p →
        axisQuadStep p now ⟨lp, tp, t⟩ = ⟨lp, tp, t⟩) ∧
    (∀ (lp tp : PinState) (t : Nat),
        axisQuadStep p (t + p) (axisQuadStep p (t + p / 2) ⟨lp, tp, t⟩) =
          ⟨{ lp with reg := !lp.reg }, { tp with reg := !lp.reg }, t + p⟩) ∧
    (∀ (s1 s2 : PS2Snapshot) (now : Nat) (st1 st2 : MouseMotionState),
        s1.rx = s2.rx → st1.rightPin = st2.rightPin →
        st1.downPin = st2.downPin → st1.tx = st2.tx →
        (handleMouseMotion s1 now st1).rightPin = (handleMouseMotion s2 now st2).rightPin ∧
        (handleMouseMotion s1 now st1).downPin = (handleMouseMotion s2 now st2).downPin ∧
        (handleMouseMotion s1 now st1).tx = (handleMouseMotion s2 now st2).tx) ∧
    (∀ (s1 s2 : PS2Snapshot) (now : Nat) (st1 st2 : MouseMotionState),
        s1.ry = s2.ry → st1.leftPin = st2.leftPin →
        st1.upPin = st2.upPin → st1.ty = st2.ty →
        (handleMouseMotion s1 now st1).leftPin = (handleMouseMotion s2 now st2).leftPin ∧
        (handleMouseMotion s1 now st1).upPin = (handleMouseMotion s2 now st2).upPin ∧
        (handleMouseMotion s1 now st1).ty = (handleMouseMotion s2 now st2).ty) := by
  refine ⟨?_, ?_, ?_, ?_, ?_, ?_, ?_⟩
  · intro s now h
    rcases s with ⟨lp, tp, t⟩
    replace h : p ≤ now - t := h
    unfold axisQuadStep
    rw [axisLeadStep_fire p now lp tp t h,
      axisTrailStep_skip p now ⟨lp.isOutput, !lp.reg⟩ tp now (by omega)]
    exact ⟨rfl, rfl⟩
  · intro s now h
    rcases s with ⟨lp, tp, t⟩
    replace h : now - t < p / 2 := h
    unfold axisQuadStep
    rw [axisLeadStep_skip p now lp tp t (by omega),
      axisTrailStep_skip p now lp tp t h]
  · intro lp tp t now hreg h1 h2
    unfold axisQuadStep
    rw [axisLeadStep_skip p now lp tp t h2, axisTrailStep_fire p now lp tp t h1, hreg]
  · intro lp tp t now hreg h1 h2
    unfold axisQuadStep
    rw [axisLeadStep_skip p now lp tp t h2, axisTrailStep_fire p now lp tp t h1,
      ← hreg]
  · intro lp tp t
    unfold axisQuadStep
    rw [axisLeadStep_skip p (t + p / 2) lp tp t (by omega),
      axisTrailStep_fire p (t + p / 2) lp tp t (by omega),
      axisLeadStep_fire p (t + p) lp ⟨tp.isOutput, !lp.reg⟩ t (by omega),
      axisTrailStep_skip p (t + p) ⟨lp.isOutput, !lp.reg⟩ ⟨tp.isOutput, !lp.reg⟩
        (t + p) (by omega)]
  · intro s1 s2 now st1 st2 hrx hr hd ht
    simp only [handleMouseMotion, hrx, hr, hd, ht]
    exact ⟨trivial, trivial, trivial⟩
  · intro s1 s2 now st1 st2 hry hl hu ht
    simp only [handleMouseMotion, hry, hl, hu, ht]
    exact ⟨trivial, trivial, trivial⟩

/-- Witness for quadrature_axis_behavior: with period 6, a pass ten
milliseconds after the last toggle inverts the leading pin level. -/
theorem quadrature_axis_behavior_witness :
    (axisQuadStep 6 10 ⟨⟨true, false⟩, ⟨true, false⟩, 0⟩).lead.reg = true := by
  have h := (quadrature_axis_behavior 6 (by decide)).1
    ⟨⟨true, false⟩, ⟨true, false⟩, 0⟩ 10 (by decide)
  simpa using h.1

/-- C10: in CD32 mode the four direction outputs follow the fixed
Normal-style formula - left-stick deflection beyond the dead zone OR the
matching digital-pad button - whatever mapping profile is selected; the
profile has no effect on them. -/
theorem cd32_directions_profile_independent (s : PS2Snapshot)
    (p q : JoyButtonMapping) :
    handleCD32PadDirections p s = handleCD32PadDirections q s ∧
    handleCD32PadDirections p s =
      { up := (mapJoystickNormal s).up, down := (mapJoystickNormal s).down
        left := (mapJoystickNormal s).left, right := (mapJoystickNormal s).right } :=
  ⟨rfl, rfl⟩

end PS2CD32
